import Mathlib

/-!
Shallow embedding of the stock-widget MCP server from `src/server.py` and
`src/data.py`.

Modelling conventions:
* The three widget HTML templates are loaded from asset files at startup
  (`_load_widget_html`); their text is opaque to the server, so the widget
  list and both lookup tables are parameterised by the three loaded strings
  (`qa` for stock-quote, `ch` for stock-chart, `po` for portfolio).
* Python dicts built by comprehension are modelled by `buildDict`, a left
  fold in which a later entry with the same key overwrites an earlier one,
  exactly as in CPython.
* Untyped JSON argument values are modelled by `JVal` (string, integer,
  boolean, null); the float prices produced by `_mock_stock_price` via
  `random.uniform` are abstracted as an arbitrary value pair supplied by a
  parameter `pg : String -> JVal × JVal`, since no claim inspects them.
* Pydantic validation of `StockInput` (one required `str` field `symbol`,
  extra fields forbidden) is modelled by `stockInputViolations` /
  `StockInput_model_validate`; pydantic aggregates every violation in
  `ValidationError.errors()`, which the model mirrors by returning the full
  violation list. The textual rendering of that list is abstracted by
  `pyErrorsRepr`, which prints every entry.
* `mcp.types.ReadResourceResult` has no error flag at all; `CallToolResult`
  has `isError` (default `False`). The structures below mirror exactly the
  fields the handlers set.
-/

/-- The frozen widget registration record of `src/server.py` (`StockWidget`). -/
structure StockWidget where
  identifier : String
  title : String
  template_uri : String
  invoking : String
  invoked : String
  html : String
  response_text : String
deriving DecidableEq, Repr

/-- Untyped JSON-ish values appearing in request arguments and metadata. -/
inductive JVal where
  | jstr : String → JVal
  | jnum : Int → JVal
  | jbool : Bool → JVal
  | jnull : JVal
deriving DecidableEq, Repr

/-- The stock-quote widget of the `widgets` list; `qa` is the HTML text
loaded for component name "stock-quote" at startup. -/
def stock_quote_widget (qa : String) : StockWidget :=
  { identifier := "stock-quote"
    title := "Show Stock Quote"
    template_uri := "ui://widget/stock-quote.html"
    invoking := "Fetching stock price"
    invoked := "Stock price loaded"
    html := qa
    response_text := "Rendered stock quote!" }

/-- The stock-chart widget of the `widgets` list; `ch` is the HTML text
loaded for component name "stock-chart" at startup. -/
def stock_chart_widget (ch : String) : StockWidget :=
  { identifier := "stock-chart"
    title := "Show Stock Chart"
    template_uri := "ui://widget/stock-chart.html"
    invoking := "Loading stock chart"
    invoked := "Stock chart loaded"
    html := ch
    response_text := "Rendered stock chart!" }

/-- The portfolio widget of the `widgets` list; `po` is the HTML text loaded
for component name "portfolio" at startup. Its template URI has no ".html"
suffix in the source. -/
def portfolio_view_widget (po : String) : StockWidget :=
  { identifier := "portfolio-view"
    title := "View Portfolio"
    template_uri := "ui://widget/portfolio"
    invoking := "Opening portfolio"
    invoked := "Portfolio displayed"
    html := po
    response_text := "Rendered portfolio view!" }

/-- The module-level ordered `widgets` list of `src/server.py`. -/
def widgets (qa ch po : String) : List StockWidget :=
  [stock_quote_widget qa, stock_chart_widget ch, portfolio_view_widget po]

/-- A Python dict comprehension over an ordered entity list, as a lookup
function: entries are inserted left to right and a later entry with the same
key silently overwrites an earlier one. -/
def buildDict (ws : List StockWidget) (key : StockWidget → String) :
    String → Option StockWidget :=
  ws.foldl (fun d w => fun k => if k = key w then some w else d k) (fun _ => none)

/-- `WIDGETS_BY_ID` of `src/server.py`: lookup by `identifier`. -/
def WIDGETS_BY_ID (qa ch po : String) : String → Option StockWidget :=
  buildDict (widgets qa ch po) StockWidget.identifier

/-- `WIDGETS_BY_URI` of `src/server.py`: lookup by `template_uri`. -/
def WIDGETS_BY_URI (qa ch po : String) : String → Option StockWidget :=
  buildDict (widgets qa ch po) StockWidget.template_uri

/-- The `MIME_TYPE` constant of `src/server.py`. -/
def MIME_TYPE : String := "text/html+skybridge"

/-- `_tool_meta` of `src/server.py`. -/
def tool_meta (w : StockWidget) : List (String × JVal) :=
  [("openai/outputTemplate", JVal.jstr w.template_uri),
   ("openai/toolInvocation/invoking", JVal.jstr w.invoking),
   ("openai/toolInvocation/invoked", JVal.jstr w.invoked),
   ("openai/widgetAccessible", JVal.jbool true)]

/-- `_tool_invocation_meta` of `src/server.py`: the lifecycle-label pair. -/
def tool_invocation_meta (w : StockWidget) : List (String × JVal) :=
  [("openai/toolInvocation/invoking", JVal.jstr w.invoking),
   ("openai/toolInvocation/invoked", JVal.jstr w.invoked)]

/-- One pydantic validation error entry: the offending location and the
message, as reported by `ValidationError.errors()`. -/
structure ValidationErr where
  loc : String
  msg : String
deriving DecidableEq, Repr

/-- Lookup of a key in the argument mapping (Python dict access). -/
def lookupArg (args : List (String × JVal)) (k : String) : Option JVal :=
  (args.find? (fun p => p.1 = k)).map Prod.snd

/-- All violations pydantic reports for `StockInput.model_validate(args)`:
the declared field `symbol` must be present and a string, and every
undeclared field is rejected because `model_config` sets extra to forbid.
Pydantic collects every such violation, not only the first. -/
def stockInputViolations (args : List (String × JVal)) : List ValidationErr :=
  (match lookupArg args "symbol" with
   | none => [ValidationErr.mk "symbol" "Field required"]
   | some (JVal.jstr _) => []
   | some _ => [ValidationErr.mk "symbol" "Input should be a valid string"]) ++
  (args.filter (fun p => p.1 ≠ "symbol")).map
    (fun p => ValidationErr.mk p.1 "Extra inputs are not permitted")

/-- `StockInput.model_validate` of `src/server.py`: returns the validated
`symbol` string, or the complete list of violations. -/
def StockInput_model_validate (args : List (String × JVal)) :
    Except (List ValidationErr) String :=
  match lookupArg args "symbol", stockInputViolations args with
  | some (JVal.jstr s), [] => Except.ok s
  | _, errs => Except.error errs

/-- Rendering of a pydantic error list into the text interpolated by
`f"Input validation error: {exc.errors()}"`: every entry of the list is
printed. -/
def pyErrorsRepr (errs : List ValidationErr) : String :=
  "[" ++ String.intercalate ", " (errs.map (fun e => e.loc ++ ": " ++ e.msg)) ++ "]"

/-- `mcp.types.TextContent` as produced by the handlers. -/
structure TextContent where
  type : String
  text : String
deriving DecidableEq, Repr

/-- `mcp.types.CallToolResult` restricted to the fields the server sets.
`isError` defaults to false and `meta` to absent, as in `mcp.types`. -/
structure CallToolResult where
  content : List TextContent
  structuredContent : Option (List (String × JVal)) := none
  isError : Bool := false
  meta : Option (List (String × JVal)) := none
deriving DecidableEq, Repr

/-- `mcp.types.TextResourceContents` as produced by `_handle_read_resource`. -/
structure TextResourceContents where
  uri : String
  mimeType : String
  text : String
  meta : List (String × JVal)
deriving DecidableEq, Repr

/-- `mcp.types.ReadResourceResult`: a contents sequence plus optional
metadata. The type has no error flag at all, so every value of it is a
Success envelope. -/
structure ReadResourceResult where
  contents : List TextResourceContents
  meta : Option (List (String × JVal)) := none
deriving DecidableEq, Repr

/-- `_handle_read_resource` of `src/server.py`: unknown URIs yield an empty
contents list with an explanatory metadata entry; known URIs yield the
widget HTML verbatim. -/
def handle_read_resource (qa ch po : String) (uri : String) : ReadResourceResult :=
  match WIDGETS_BY_URI qa ch po uri with
  | none =>
      { contents := []
        meta := some [("error", JVal.jstr ("Unknown resource: " ++ uri))] }
  | some w =>
      { contents := [{ uri := w.template_uri
                       mimeType := MIME_TYPE
                       text := w.html
                       meta := tool_meta w }] }

/-- `_call_tool_request` of `src/server.py`. `pg` abstracts the random draw
of `_mock_stock_price` (price and change for a given symbol); `arguments`
is the optional argument mapping of the request. -/
def call_tool_request (qa ch po : String) (pg : String → JVal × JVal)
    (name : String) (arguments : Option (List (String × JVal))) : CallToolResult :=
  match WIDGETS_BY_ID qa ch po name with
  | none =>
      { content := [TextContent.mk "text" ("Unknown tool: " ++ name)]
        isError := true }
  | some widget =>
      match StockInput_model_validate (arguments.getD []) with
      | Except.error errs =>
          { content := [TextContent.mk "text"
              ("Input validation error: " ++ pyErrorsRepr errs)]
            isError := true }
      | Except.ok symbol =>
          { content := [TextContent.mk "text" widget.response_text]
            structuredContent := some
              [("symbol", JVal.jstr symbol),
               ("price", (pg symbol).1),
               ("change", (pg symbol).2)]
            meta := some (tool_invocation_meta widget) }

/-- The call-to-action record nested in each item of `src/data.py`. -/
structure Cta where
  label : String
  action : String
deriving DecidableEq, Repr

/-- One carousel item record of `src/data.py`. -/
structure CarouselItem where
  title : String
  subtitle : String
  description : String
  image : String
  cta : Cta
deriving DecidableEq, Repr

/-- `get_items` of `src/data.py`: the fixed three-record stock list,
independent of the query. -/
def get_items (query : String) : List CarouselItem :=
  [{ title := "RELIANCE"
     subtitle := "₹2,485.20"
     description := "Strong volume breakout"
     image := "https://logo.clearbit.com/relianceindustries.com"
     cta := { label := "Buy", action := "buy_reliance" } },
   { title := "TCS"
     subtitle := "₹3,912.40"
     description := "Range bound, low momentum"
     image := "https://logo.clearbit.com/tcs.com"
     cta := { label := "View", action := "view_tcs" } },
   { title := "HDFCBANK"
     subtitle := "₹1,642.10"
     description := "Support holding"
     image := "https://logo.clearbit.com/hdfcbank.com"
     cta := { label := "Analyze", action := "analyze_hdfc" } }]

/-- Modelled from the spec: the fixed-data carousel server variant that
registers the tool "show-stock-carousel" is not among the two source files;
only its data source `get_items` (in `src/data.py`) is. Per the spec, a
successful call returns the text "Rendered stock carousel" together with the
items of `get_items(query)` as the structured payload. -/
structure CarouselResult where
  text : String
  items : List CarouselItem
deriving DecidableEq, Repr

/-- Modelled from the spec: the successful "show-stock-carousel" invocation
of the fixed-data variant, wrapping `get_items` (the part of that variant
that is in `src/data.py`) with the response text the spec states. -/
def show_stock_carousel (query : String) : CarouselResult :=
  { text := "Rendered stock carousel", items := get_items query }

/-- All strings carried by one carousel item record. -/
def itemStrings (i : CarouselItem) : List String :=
  [i.title, i.subtitle, i.description, i.image, i.cta.label, i.cta.action]

/-! ## Helper lemmas about the dict comprehension -/

/-- Any hit in the fold-built dictionary comes from the list or from the
initial table. -/
lemma foldl_dict_mem (key : StockWidget → String) (ws : List StockWidget)
    (d : String → Option StockWidget) (k : String) (v : StockWidget)
    (h : (ws.foldl (fun d w => fun k => if k = key w then some w else d k) d) k = some v) :
    v ∈ ws ∨ d k = some v := by
  induction ws generalizing d with
  | nil => exact Or.inr h
  | cons w ws ih =>
      rcases ih _ h with hmem | hd
      · exact Or.inl (List.mem_cons_of_mem _ hmem)
      · dsimp only at hd
        by_cases hk : k = key w
        · rw [if_pos hk] at hd
          injection hd with hd
          exact Or.inl (by rw [← hd]; exact List.mem_cons_self w ws)
        · rw [if_neg hk] at hd
          exact Or.inr hd

/-- Any widget returned by a comprehension-built lookup table is a member of
the list the table was built from. -/
lemma buildDict_some_mem (ws : List StockWidget) (key : StockWidget → String)
    (k : String) (v : StockWidget) (h : buildDict ws key k = some v) : v ∈ ws := by
  rcases foldl_dict_mem key ws _ k v h with hm | hd
  · exact hm
  · exact absurd hd (by simp)

/-- Every widget of the catalogue is found under its own identifier. -/
lemma byId_self (qa ch po : String) (w : StockWidget) (hw : w ∈ widgets qa ch po) :
    WIDGETS_BY_ID qa ch po w.identifier = some w := by
  simp only [widgets, List.mem_cons, List.mem_singleton, List.not_mem_nil, or_false] at hw
  rcases hw with rfl | rfl | rfl <;> rfl

/-- Every widget of the catalogue is found under its own template URI. -/
lemma byUri_self (qa ch po : String) (w : StockWidget) (hw : w ∈ widgets qa ch po) :
    WIDGETS_BY_URI qa ch po w.template_uri = some w := by
  simp only [widgets, List.mem_cons, List.mem_singleton, List.not_mem_nil, or_false] at hw
  rcases hw with rfl | rfl | rfl <;> rfl

/-- The two lookup tables hold exactly the same widgets. -/
lemma tables_sync (qa ch po : String) (v : StockWidget) :
    (∃ k, WIDGETS_BY_ID qa ch po k = some v) ↔
    ∃ k, WIDGETS_BY_URI qa ch po k = some v := by
  constructor
  · rintro ⟨k, hk⟩
    exact ⟨v.template_uri, byUri_self qa ch po v (buildDict_some_mem _ _ _ _ hk)⟩
  · rintro ⟨k, hk⟩
    exact ⟨v.identifier, byId_self qa ch po v (buildDict_some_mem _ _ _ _ hk)⟩

/-! ## Helper lemmas about the validator -/

/-- When the violation list is nonempty, validation reports exactly that
list. -/
lemma validate_error_of_violations (args : List (String × JVal))
    (hbad : stockInputViolations args ≠ []) :
    StockInput_model_validate args = Except.error (stockInputViolations args) := by
  unfold StockInput_model_validate
  split
  · rename_i heq
    exact absurd heq hbad
  · rfl

/-- A successful validation returns exactly the string stored under the
`symbol` key of the argument mapping. -/
lemma validate_ok_lookup (args : List (String × JVal)) (s : String)
    (h : StockInput_model_validate args = Except.ok s) :
    lookupArg args "symbol" = some (JVal.jstr s) := by
  unfold StockInput_model_validate at h
  split at h
  · rename_i hlook _
    injection h with h
    rw [← h]
    exact hlook
  · exact absurd h (by simp)

/-! ## The claims -/

/-- C1, counterexample: building the lookup table from a list in which two
distinct entities share the identifier "dup" does not fail; it succeeds and
the table holds the later entity, silently overwriting the earlier one. -/
theorem C1_counterexample :
    buildDict
      [StockWidget.mk "dup" "A" "ui://a" "ia" "da" "ha" "ra",
       StockWidget.mk "dup" "B" "ui://b" "ib" "db" "hb" "rb"]
      StockWidget.identifier "dup" =
      some (StockWidget.mk "dup" "B" "ui://b" "ib" "db" "hb" "rb") ∧
    StockWidget.mk "dup" "A" "ui://a" "ia" "da" "ha" "ra" ≠
      StockWidget.mk "dup" "B" "ui://b" "ib" "db" "hb" "rb" := by
  exact ⟨rfl, by decide⟩

/-- C1 (amended): catalogue construction by dict comprehension never fails;
appending an entity makes its key map to it — a later entity with a key
already present silently overwrites the earlier entry, and other keys are
untouched. -/
theorem C1_construction_last_wins (ws : List StockWidget) (w : StockWidget)
    (key : StockWidget → String) (k : String) :
    buildDict (ws ++ [w]) key k =
      if k = key w then some w else buildDict ws key k := by
  simp only [buildDict, List.foldl_append]
  rfl

/-- C2, counterexample: the tool name "stock-quote" is registered, its call
with an argument mapping that fails validation yields an error result, and
that result carries no metadata at all — the lifecycle-label metadata is
absent on a validation failure for a known tool. -/
theorem C2_counterexample :
    (WIDGETS_BY_ID "" "" "" "stock-quote").isSome = true ∧
    (call_tool_request "" "" "" (fun _ => (JVal.jnum 0, JVal.jnum 0)) "stock-quote"
       (some [("bogus", JVal.jnum 1)])).isError = true ∧
    (call_tool_request "" "" "" (fun _ => (JVal.jnum 0, JVal.jnum 0)) "stock-quote"
       (some [("bogus", JVal.jnum 1)])).meta = none := by
  decide

/-- C2 (amended): the lifecycle-label metadata is attached exactly to
successful tool-call results: a successful result carries the metadata of
the resolved widget, while every error result (unknown tool or validation
failure) carries no metadata. -/
theorem C2_meta_only_on_success (qa ch po : String) (pg : String → JVal × JVal)
    (name : String) (args : Option (List (String × JVal))) :
    ((call_tool_request qa ch po pg name args).isError = false →
      ∃ w, WIDGETS_BY_ID qa ch po name = some w ∧
        (call_tool_request qa ch po pg name args).meta =
          some (tool_invocation_meta w)) ∧
    ((call_tool_request qa ch po pg name args).isError = true →
      (call_tool_request qa ch po pg name args).meta = none) := by
  unfold call_tool_request
  cases hid : WIDGETS_BY_ID qa ch po name with
  | none => simp
  | some w =>
      cases hv : StockInput_model_validate (args.getD []) with
      | error errs => simp
      | ok s => simp

/-- C2 witness: a concrete successful call carries the lifecycle-label
metadata of its widget. -/
theorem C2_witness :
    ∃ w, WIDGETS_BY_ID "" "" "" "stock-quote" = some w ∧
      (call_tool_request "" "" "" (fun _ => (JVal.jnum 7, JVal.jnum 1)) "stock-quote"
        (some [("symbol", JVal.jstr "TSLA")])).meta = some (tool_invocation_meta w) :=
  (C2_meta_only_on_success "" "" "" (fun _ => (JVal.jnum 7, JVal.jnum 1)) "stock-quote"
    (some [("symbol", JVal.jstr "TSLA")])).1 (by decide)

/-- C3: every widget of the catalogue is found in the identifier table under
its own identifier and in the URI table under its own template URI, and the
two tables hold exactly the same widgets. -/
theorem C3_lookup_consistency (qa ch po : String) (w : StockWidget)
    (hw : w ∈ widgets qa ch po) :
    WIDGETS_BY_ID qa ch po w.identifier = some w ∧
    WIDGETS_BY_URI qa ch po w.template_uri = some w ∧
    ∀ v, (∃ k, WIDGETS_BY_ID qa ch po k = some v) ↔
         ∃ k, WIDGETS_BY_URI qa ch po k = some v :=
  ⟨byId_self qa ch po w hw, byUri_self qa ch po w hw,
   fun v => tables_sync qa ch po v⟩

/-- C3 witness: the stock-quote widget is in the catalogue and is found by
both lookups. -/
theorem C3_witness :
    stock_quote_widget "" ∈ widgets "" "" "" ∧
    (WIDGETS_BY_ID "" "" "" (stock_quote_widget "").identifier =
       some (stock_quote_widget "") ∧
     WIDGETS_BY_URI "" "" "" (stock_quote_widget "").template_uri =
       some (stock_quote_widget "") ∧
     ∀ v, (∃ k, WIDGETS_BY_ID "" "" "" k = some v) ↔
          ∃ k, WIDGETS_BY_URI "" "" "" k = some v) :=
  ⟨by decide, C3_lookup_consistency "" "" "" (stock_quote_widget "") (by decide)⟩

/-- C4: a ReadResource request whose URI resolves to no widget yields a
result whose contents sequence is empty; the result type
(`ReadResourceResult`) is the success envelope and has no error flag at
all, so no error flag is or can be set. -/
theorem C4_unknown_resource_empty_success (qa ch po uri : String)
    (h : WIDGETS_BY_URI qa ch po uri = none) :
    (handle_read_resource qa ch po uri).contents = [] := by
  unfold handle_read_resource
  rw [h]

/-- C4 witness: reading the unknown key from the spec example yields empty
contents. -/
theorem C4_witness :
    WIDGETS_BY_URI "" "" "" "ui://widget/does-not-exist.html" = none ∧
    (handle_read_resource "" "" "" "ui://widget/does-not-exist.html").contents = [] :=
  ⟨by decide, C4_unknown_resource_empty_success "" "" ""
    "ui://widget/does-not-exist.html" (by decide)⟩

/-- C5: a CallTool request whose name resolves to no widget yields an error
result (isError set) whose single text content starts with "Unknown tool",
whatever the supplied arguments are. -/
theorem C5_unknown_tool (qa ch po name : String) (pg : String → JVal × JVal)
    (args : Option (List (String × JVal)))
    (h : WIDGETS_BY_ID qa ch po name = none) :
    (call_tool_request qa ch po pg name args).isError = true ∧
    ∃ rest, (call_tool_request qa ch po pg name args).content =
      [TextContent.mk "text" ("Unknown tool" ++ rest)] := by
  unfold call_tool_request
  rw [h]
  refine ⟨rfl, ⟨": " ++ name, ?_⟩⟩
  rw [← String.append_assoc]
  rfl

/-- C5 witness: the spec example call on the unregistered name
"unknown-tool" with empty arguments. -/
theorem C5_witness :
    WIDGETS_BY_ID "" "" "" "unknown-tool" = none ∧
    ((call_tool_request "" "" "" (fun _ => (JVal.jnum 0, JVal.jnum 0)) "unknown-tool"
        (some [])).isError = true ∧
     ∃ rest, (call_tool_request "" "" "" (fun _ => (JVal.jnum 0, JVal.jnum 0))
        "unknown-tool" (some [])).content =
        [TextContent.mk "text" ("Unknown tool" ++ rest)]) :=
  ⟨by decide, C5_unknown_tool "" "" "" "unknown-tool"
    (fun _ => (JVal.jnum 0, JVal.jnum 0)) (some []) (by decide)⟩

/-- C6: calling a known tool with arguments that violate the schema yields
an error result whose text renders the complete violation list, and the
violation list is complete: it contains an entry for every undeclared extra
field, an entry when the required `symbol` field is missing, and an entry
when a present `symbol` field is not a string. -/
theorem C6_validation_reports_all (qa ch po name : String)
    (pg : String → JVal × JVal) (args : List (String × JVal)) (w : StockWidget)
    (hw : WIDGETS_BY_ID qa ch po name = some w)
    (hbad : stockInputViolations args ≠ []) :
    (call_tool_request qa ch po pg name (some args)).isError = true ∧
    (call_tool_request qa ch po pg name (some args)).content =
      [TextContent.mk "text"
        ("Input validation error: " ++ pyErrorsRepr (stockInputViolations args))] ∧
    (∀ k v, (k, v) ∈ args → k ≠ "symbol" →
      ValidationErr.mk k "Extra inputs are not permitted" ∈
        stockInputViolations args) ∧
    (lookupArg args "symbol" = none →
      ValidationErr.mk "symbol" "Field required" ∈ stockInputViolations args) ∧
    (∀ v, lookupArg args "symbol" = some v → (∀ s, v ≠ JVal.jstr s) →
      ValidationErr.mk "symbol" "Input should be a valid string" ∈
        stockInputViolations args) := by
  have hv : StockInput_model_validate args =
      Except.error (stockInputViolations args) :=
    validate_error_of_violations args hbad
  refine ⟨?_, ?_, ?_, ?_, ?_⟩
  · unfold call_tool_request
    rw [hw]
    simp only [Option.getD_some, hv]
  · unfold call_tool_request
    rw [hw]
    simp only [Option.getD_some, hv]
  · intro k v hmem hk
    unfold stockInputViolations
    refine List.mem_append_right _ ?_
    exact List.mem_map.2 ⟨(k, v), List.mem_filter.2 ⟨hmem, by simp [hk]⟩, rfl⟩
  · intro hnone
    unfold stockInputViolations
    rw [hnone]
    exact List.mem_append_left _ (List.mem_singleton.2 rfl)
  · intro v hsome hnstr
    unfold stockInputViolations
    rw [hsome]
    cases v with
    | jstr s => exact absurd rfl (hnstr s)
    | jnum n => exact List.mem_append_left _ (List.mem_singleton.2 rfl)
    | jbool b => exact List.mem_append_left _ (List.mem_singleton.2 rfl)
    | jnull => exact List.mem_append_left _ (List.mem_singleton.2 rfl)

/-- C6 witness: a call to the known tool "stock-quote" with a valid `symbol`
plus an undeclared extra field is rejected with the rendered violation
list. -/
theorem C6_witness :
    (call_tool_request "" "" "" (fun _ => (JVal.jnum 0, JVal.jnum 0)) "stock-quote"
       (some [("symbol", JVal.jstr "x"), ("extra", JVal.jnum 1)])).isError = true ∧
    (call_tool_request "" "" "" (fun _ => (JVal.jnum 0, JVal.jnum 0)) "stock-quote"
       (some [("symbol", JVal.jstr "x"), ("extra", JVal.jnum 1)])).content =
      [TextContent.mk "text"
        ("Input validation error: " ++
          pyErrorsRepr (stockInputViolations
            [("symbol", JVal.jstr "x"), ("extra", JVal.jnum 1)]))] :=
  ⟨(C6_validation_reports_all "" "" "" "stock-quote"
      (fun _ => (JVal.jnum 0, JVal.jnum 0))
      [("symbol", JVal.jstr "x"), ("extra", JVal.jnum 1)]
      (stock_quote_widget "") (by decide) (by decide)).1,
   (C6_validation_reports_all "" "" "" "stock-quote"
      (fun _ => (JVal.jnum 0, JVal.jnum 0))
      [("symbol", JVal.jstr "x"), ("extra", JVal.jnum 1)]
      (stock_quote_widget "") (by decide) (by decide)).2.1⟩

/-- C7: reading the resource at the template URI of any registered widget
yields exactly one content item whose text is the HTML text stored for that
widget at startup, unchanged. -/
theorem C7_roundtrip (qa ch po : String) (w : StockWidget)
    (hw : w ∈ widgets qa ch po) :
    (handle_read_resource qa ch po w.template_uri).contents.map
      TextResourceContents.text = [w.html] := by
  unfold handle_read_resource
  rw [byUri_self qa ch po w hw]
  rfl

/-- C7 witness: with concrete startup HTML texts, reading the stock-quote
URI serves back exactly the loaded text. -/
theorem C7_witness :
    stock_quote_widget "quote-html" ∈ widgets "quote-html" "chart-html" "pf-html" ∧
    (handle_read_resource "quote-html" "chart-html" "pf-html"
        (stock_quote_widget "quote-html").template_uri).contents.map
      TextResourceContents.text = [(stock_quote_widget "quote-html").html] :=
  ⟨by decide, C7_roundtrip "quote-html" "chart-html" "pf-html"
    (stock_quote_widget "quote-html") (by decide)⟩

/-- C8, counterexample: the fixed-data carousel result has the stated text
and the three stated symbols, but none of its record fields is one of the
change strings "+1.2%", "-0.4%", "+0.7%" — the fixed records of
`src/data.py` carry rupee price subtitles and descriptions, no change
percentages. -/
theorem C8_counterexample :
    (show_stock_carousel "x").text = "Rendered stock carousel" ∧
    (show_stock_carousel "x").items.map CarouselItem.title =
      ["RELIANCE", "TCS", "HDFCBANK"] ∧
    ((show_stock_carousel "x").items.map itemStrings).flatten.contains "+1.2%" = false ∧
    ((show_stock_carousel "x").items.map itemStrings).flatten.contains "-0.4%" = false ∧
    ((show_stock_carousel "x").items.map itemStrings).flatten.contains "+0.7%" = false := by
  decide

/-- C8 (amended): the carousel call succeeds with text "Rendered stock
carousel" and a structured payload holding exactly the three fixed records
of `src/data.py` — RELIANCE at ₹2,485.20, TCS at ₹3,912.40 and HDFCBANK at
₹1,642.10. -/
theorem C8_carousel_fixed_records :
    (show_stock_carousel "x").text = "Rendered stock carousel" ∧
    (show_stock_carousel "x").items = get_items "x" ∧
    (show_stock_carousel "x").items.map (fun i => (i.title, i.subtitle)) =
      [("RELIANCE", "₹2,485.20"), ("TCS", "₹3,912.40"),
       ("HDFCBANK", "₹1,642.10")] := by
  decide

/-- C9: every successful tool call carries a structured payload with exactly
the three keys symbol, price and change, in which the value under symbol is
exactly the string supplied under the `symbol` key of the request arguments,
whatever pair the price generator produced. -/
theorem C9_success_payload (qa ch po name : String) (pg : String → JVal × JVal)
    (args : Option (List (String × JVal)))
    (h : (call_tool_request qa ch po pg name args).isError = false) :
    ∃ s, lookupArg (args.getD []) "symbol" = some (JVal.jstr s) ∧
      (call_tool_request qa ch po pg name args).structuredContent =
        some [("symbol", JVal.jstr s), ("price", (pg s).1),
              ("change", (pg s).2)] := by
  unfold call_tool_request at h ⊢
  cases hid : WIDGETS_BY_ID qa ch po name with
  | none =>
      rw [hid] at h
      exact Bool.noConfusion h
  | some w =>
      cases hv : StockInput_model_validate (args.getD []) with
      | error errs =>
          rw [hid, hv] at h
          exact Bool.noConfusion h
      | ok s => exact ⟨s, validate_ok_lookup _ s hv, rfl⟩

/-- C9 witness: a concrete successful call echoes its symbol "AAPL" back in
the structured payload next to the generated price and change. -/
theorem C9_witness :
    ∃ s, lookupArg ((some [("symbol", JVal.jstr "AAPL")]).getD []) "symbol" =
        some (JVal.jstr s) ∧
      (call_tool_request "" "" "" (fun _ => (JVal.jnum 100, JVal.jnum 2))
          "stock-quote" (some [("symbol", JVal.jstr "AAPL")])).structuredContent =
        some [("symbol", JVal.jstr s),
              ("price", ((fun _ => (JVal.jnum 100, JVal.jnum 2)) s).1),
              ("change", ((fun _ => (JVal.jnum 100, JVal.jnum 2)) s).2)] :=
  C9_success_payload "" "" "" "stock-quote" (fun _ => (JVal.jnum 100, JVal.jnum 2))
    (some [("symbol", JVal.jstr "AAPL")]) (by decide)

/-- C10: the empty-contents result for an unknown resource URI carries a
metadata entry under the key "error" whose text names the unknown URI. -/
theorem C10_unknown_resource_meta (qa ch po uri : String)
    (h : WIDGETS_BY_URI qa ch po uri = none) :
    (handle_read_resource qa ch po uri).meta =
      some [("error", JVal.jstr ("Unknown resource: " ++ uri))] := by
  unfold handle_read_resource
  rw [h]

/-- C10 witness: the unknown-URI metadata at the spec example key. -/
theorem C10_witness :
    WIDGETS_BY_URI "" "" "" "ui://widget/does-not-exist.html" = none ∧
    (handle_read_resource "" "" "" "ui://widget/does-not-exist.html").meta =
      some [("error", JVal.jstr
        ("Unknown resource: " ++ "ui://widget/does-not-exist.html"))] :=
  ⟨by decide, C10_unknown_resource_meta "" "" ""
    "ui://widget/does-not-exist.html" (by decide)⟩
